import Mathlib

/-!
Shallow embedding of `opentelemetry/ext/asgi/__init__.py` (ASGI
OpenTelemetry middleware helpers) together with theorems checking the
specification's claims about the status classifier, the request-attribute
extractor, `set_status_code` and `get_default_span_name`.

Python integers are modelled as `Int`; byte strings (the ASGI
`query_string` field and header values, which the code immediately
decodes or compares as-is) are modelled as `String`, taking UTF-8
decoding as the identity on the modelled values.  Python exceptions are
modelled with `Except PyErr`.
-/

/-- The canonical status codes of `opentelemetry.trace.status.StatusCanonicalCode`
(only the members the module uses). -/
inductive StatusCanonicalCode
  | OK
  | UNKNOWN
  | INVALID_ARGUMENT
  | DEADLINE_EXCEEDED
  | NOT_FOUND
  | PERMISSION_DENIED
  | UNAUTHENTICATED
  | RESOURCE_EXHAUSTED
  | UNIMPLEMENTED
  | UNAVAILABLE
  | INTERNAL
  deriving DecidableEq

/-- Python exceptions raised by the modelled code. -/
inductive PyErr
  | typeError (msg : String)
  | keyError (key : String)
  | valueError (msg : String)
  deriving DecidableEq

/-- Embeds `http_status_to_canonical_code(code, allow_redirect=True)`
(source lines 56-84): the chain of `if` range tests, evaluated
top-to-bottom exactly as in the Python function.  The Python default
argument `allow_redirect=True` is passed explicitly at every call site
of the model. -/
def http_status_to_canonical_code (code : Int) (allow_redirect : Bool) : StatusCanonicalCode :=
  if code < 100 then StatusCanonicalCode.UNKNOWN
  else if code ≤ 299 then StatusCanonicalCode.OK
  else if code ≤ 399 then
    if allow_redirect then StatusCanonicalCode.OK
    else StatusCanonicalCode.DEADLINE_EXCEEDED
  else if code ≤ 499 then
    if code = 401 then StatusCanonicalCode.UNAUTHENTICATED
    else if code = 403 then StatusCanonicalCode.PERMISSION_DENIED
    else if code = 404 then StatusCanonicalCode.NOT_FOUND
    else if code = 429 then StatusCanonicalCode.RESOURCE_EXHAUSTED
    else StatusCanonicalCode.INVALID_ARGUMENT
  else if code ≤ 599 then
    if code = 501 then StatusCanonicalCode.UNIMPLEMENTED
    else if code = 503 then StatusCanonicalCode.UNAVAILABLE
    else if code = 504 then StatusCanonicalCode.DEADLINE_EXCEEDED
    else StatusCanonicalCode.INTERNAL
  else StatusCanonicalCode.UNKNOWN

/-- C1: every code in [100,299] classifies as OK under either flag value,
and every code in [300,399] classifies as OK when `allow_redirect` is
true and as DEADLINE_EXCEEDED when it is false. -/
theorem classify_success_and_redirect_ranges (code : Int) (ar : Bool) :
    (100 ≤ code → code ≤ 299 →
      http_status_to_canonical_code code ar = StatusCanonicalCode.OK) ∧
    (300 ≤ code → code ≤ 399 →
      http_status_to_canonical_code code true = StatusCanonicalCode.OK ∧
      http_status_to_canonical_code code false = StatusCanonicalCode.DEADLINE_EXCEEDED) := by
  unfold http_status_to_canonical_code
  constructor
  · intro h1 h2
    split_ifs <;> first | rfl | (exfalso; omega)
  · intro h1 h2
    constructor <;> (split_ifs <;> first | rfl | (exfalso; omega) | simp_all)

/-- Witness for C1 at concrete codes 200 and 301. -/
theorem classify_success_and_redirect_ranges_witness :
    http_status_to_canonical_code 200 false = StatusCanonicalCode.OK ∧
    http_status_to_canonical_code 301 true = StatusCanonicalCode.OK ∧
    http_status_to_canonical_code 301 false = StatusCanonicalCode.DEADLINE_EXCEEDED := by
  refine ⟨?_, ?_, ?_⟩
  · exact (classify_success_and_redirect_ranges 200 false).1 (by decide) (by decide)
  · exact ((classify_success_and_redirect_ranges 301 false).2 (by decide) (by decide)).1
  · exact ((classify_success_and_redirect_ranges 301 true).2 (by decide) (by decide)).2

/-- C2: on [400,599], under either flag value, the classifier maps
401/403/404/429 to their dedicated codes and the rest of [400,499] to
INVALID_ARGUMENT, and 501/503/504 to their dedicated codes and the rest
of [500,599] to INTERNAL. -/
theorem classify_client_and_server_error_ranges (code : Int) (ar : Bool)
    (h4 : 400 ≤ code) (h5 : code ≤ 599) :
    http_status_to_canonical_code code ar =
      if code = 401 then StatusCanonicalCode.UNAUTHENTICATED
      else if code = 403 then StatusCanonicalCode.PERMISSION_DENIED
      else if code = 404 then StatusCanonicalCode.NOT_FOUND
      else if code = 429 then StatusCanonicalCode.RESOURCE_EXHAUSTED
      else if code ≤ 499 then StatusCanonicalCode.INVALID_ARGUMENT
      else if code = 501 then StatusCanonicalCode.UNIMPLEMENTED
      else if code = 503 then StatusCanonicalCode.UNAVAILABLE
      else if code = 504 then StatusCanonicalCode.DEADLINE_EXCEEDED
      else StatusCanonicalCode.INTERNAL := by
  unfold http_status_to_canonical_code
  rw [if_neg (by omega : ¬ code < 100), if_neg (by omega : ¬ code ≤ 299),
    if_neg (by omega : ¬ code ≤ 399)]
  by_cases h401 : code = 401
  · subst h401; decide
  by_cases h403 : code = 403
  · subst h403; decide
  by_cases h404 : code = 404
  · subst h404; decide
  by_cases h429 : code = 429
  · subst h429; decide
  simp only [if_neg h401, if_neg h403, if_neg h404, if_neg h429]
  by_cases hc : code ≤ 499
  · simp only [if_pos hc]
  simp only [if_neg hc, if_pos h5]

/-- Witness for C2 at the concrete code 404. -/
theorem classify_client_and_server_error_ranges_witness :
    http_status_to_canonical_code 404 true = StatusCanonicalCode.NOT_FOUND := by
  have h := classify_client_and_server_error_ranges 404 true (by decide) (by decide)
  rw [h]; decide

/-- C3: every code below 100 (negative codes included) and every code at
or above 600 classifies as UNKNOWN under either flag value.  (Totality
over all integer inputs is carried by the type of
`http_status_to_canonical_code` itself: a Lean function `Int → Bool →
StatusCanonicalCode` returns a member of the enumeration on every
input.) -/
theorem classify_out_of_range_unknown (code : Int) (ar : Bool)
    (h : code < 100 ∨ 600 ≤ code) :
    http_status_to_canonical_code code ar = StatusCanonicalCode.UNKNOWN := by
  unfold http_status_to_canonical_code
  rcases h with h | h <;> (split_ifs <;> first | rfl | (exfalso; omega))

/-- Witness for C3 at the concrete codes -5 and 600. -/
theorem classify_out_of_range_unknown_witness :
    http_status_to_canonical_code (-5) true = StatusCanonicalCode.UNKNOWN ∧
    http_status_to_canonical_code 600 false = StatusCanonicalCode.UNKNOWN := by
  constructor
  · exact classify_out_of_range_unknown (-5) true (Or.inl (by decide))
  · exact classify_out_of_range_unknown 600 false (Or.inr (by decide))

/-- Attribute values: the extractor stores strings and integers. -/
inductive AttrVal
  | str (s : String)
  | int (n : Int)
  deriving DecidableEq

/-- The value stored under the `server` key of an ASGI scope.  The code
evaluates `scope.get("server") or ['0.0.0.0', 80]`, so what matters is
Python truthiness: `None` and an empty sequence are falsy, a
(host, port) pair is a two-element (hence truthy) sequence. -/
inductive ServerVal
  | pyNone
  | emptySeq
  | pair (host : String) (port : Int)
  deriving DecidableEq

/-- Python truthiness of a `server` value: `None` and an empty sequence
are falsy, a (host, port) pair is truthy. -/
def ServerVal.truthy : ServerVal → Bool
  | .pair _ _ => true
  | _ => false

/-- An ASGI connection scope, restricted to the keys the module reads.
`Option` marks a key that may be absent from the dict (`scope.get`
returns `None` for it).  For `client` the outer `Option` is key
presence (`"client" in scope`) and the inner `Option` is the stored
value (`None` or an (ip, port) pair).  `query_string` holds the
UTF-8-decoded bytes; `none` means the key is absent and `some ""` means
the key holds the empty byte string, both falsy in Python. -/
structure Scope where
  type : Option String
  method : Option String
  scheme : Option String
  path : Option String
  query_string : Option String
  http_version : Option String
  server : Option ServerVal
  client : Option (Option (String × Int))
  headers : List (String × String)
  deriving DecidableEq

/-- Embeds `get_header_from_scope(scope, header_name)` (source lines
40-48): the list comprehension
`[value for (key, value) in scope['headers'] if key == header_name]`. -/
def get_header_from_scope (scope : Scope) (header_name : String) : List String :=
  (scope.headers.filter (fun kv => kv.1 == header_name)).map (fun kv => kv.2)

/-- Evaluates `x + ...` where `x` came from `scope.get(key)`: when the
key is absent the value is `None` and Python raises
`TypeError: unsupported operand type(s) for +`. -/
def pyStrOfGet (x : Option String) : Except PyErr String :=
  match x with
  | some s => Except.ok s
  | none => Except.error (PyErr.typeError "unsupported operand type(s) for +")

/-- Evaluates `scope[key]` for a string-valued key: `KeyError` when absent. -/
def pyGetItem (x : Option String) (key : String) : Except PyErr String :=
  match x with
  | some s => Except.ok s
  | none => Except.error (PyErr.keyError key)

/-- Embeds lines 89-91: `server = scope.get("server") or ['0.0.0.0', 80]`
followed by `port = server[1]` and the host part `server[0]`.  A falsy
stored value (`None`, empty sequence) and an absent key both select the
default pair. -/
def resolveServer (scope : Scope) : String × Int :=
  match scope.server with
  | some v => if v.truthy then
      match v with
      | .pair h p => (h, p)
      | _ => ("0.0.0.0", 80)
    else ("0.0.0.0", 80)
  | none => ("0.0.0.0", 80)

/-- Embeds line 91: `host = server[0] + (":" + str(port) if port != 80 else "")`. -/
def hostDisplay (host : String) (port : Int) : String :=
  host ++ (if port ≠ 80 then ":" ++ toString port else "")

/-- Embeds lines 89-94 of `collect_request_attributes`: the computation
of the local variable `http_url`.
`http_url = scope.get("scheme") + "://" + host + scope.get("path")`,
then `if scope.get("query_string"): http_url = http_url + ("?" +
scope.get("query_string").decode("utf8"))`.  An absent `scheme` or
`path` key makes the string concatenation raise `TypeError`. -/
def http_url_of_scope (scope : Scope) : Except PyErr String := do
  let server := resolveServer scope
  let port := server.2
  let host := hostDisplay server.1 port
  let scheme ← pyStrOfGet scope.scheme
  let path ← pyStrOfGet scope.path
  let base := scheme ++ "://" ++ host ++ path
  match scope.query_string with
  | some q => if q ≠ "" then Except.ok (base ++ "?" ++ q) else Except.ok base
  | none => Except.ok base

/-- Embeds `collect_request_attributes(scope)` (source lines 87-113).
After computing `http_url`, the function builds the dict literal
`result = {"component": scope("type"), ...}`; evaluating its first
entry calls the `scope` dict as a function, which raises
`TypeError: 'dict' object is not callable`, so the entries after it —
including the `http.server_name` join and the `net.peer.*` block — are
dead code.  They are kept here after the raising bind, where the
`Except` monad makes them equally unreachable. -/
def collect_request_attributes (scope : Scope) :
    Except PyErr (List (String × AttrVal)) := do
  let server := resolveServer scope
  let port := server.2
  let host := hostDisplay server.1 port
  let http_url ← http_url_of_scope scope
  let _component ← (Except.error (PyErr.typeError "'dict' object is not callable") :
    Except PyErr String)
  let method ← pyGetItem scope.method "method"
  let scheme ← pyGetItem scope.scheme "scheme"
  let http_version ← pyGetItem scope.http_version "http_version"
  let path ← pyGetItem scope.path "path"
  let result : List (String × AttrVal) :=
    [("component", AttrVal.str _component),
     ("http.method", AttrVal.str method),
     ("http.schema", AttrVal.str scheme),
     ("http.host", AttrVal.str host),
     ("host.port", AttrVal.int port),
     ("http.flaver", AttrVal.str http_version),
     ("http.target", AttrVal.str path),
     ("http.url", AttrVal.str http_url)]
  let http_host_value := String.intercalate "," (get_header_from_scope scope "host")
  let result := if http_host_value ≠ "" then
      result ++ [("http.server_name", AttrVal.str http_host_value)]
    else result
  let result := match scope.client with
    | some (some c) => result ++
        [("net.peer.ip", AttrVal.str c.1), ("net.peer.port", AttrVal.int c.2)]
    | _ => result
  Except.ok result

/-- Embeds Python `str.format` field resolution as used on line 137: in
`"HTTP {method}".format({"method": scope.get("method")})` the dict is a
single positional argument, reachable only through an index field such
as `{0}`; the named field `{method}` is looked up among the keyword
arguments, and raises `KeyError` when no keyword argument of that name
was passed. -/
def formatNamedField (kwargs : List (String × String)) (field : String) :
    Except PyErr String :=
  match kwargs.find? (fun kv => kv.1 == field) with
  | some kv => Except.ok kv.2
  | none => Except.error (PyErr.keyError field)

/-- Embeds `get_default_span_name(scope)` (source lines 134-137):
`"HTTP {method}".format({"method": scope.get("method")})`.  No keyword
argument named `method` is passed, so the named-field lookup raises. -/
def get_default_span_name (scope : Scope) : Except PyErr String := do
  let _arg := [("method", scope.method)]
  let m ← formatNamedField [] "method"
  Except.ok ("HTTP " ++ m)

/-- A span status as built by `Status(canonical_code, description=None)`. -/
structure SpanStatus where
  canonical_code : StatusCanonicalCode
  description : Option String
  deriving DecidableEq

/-- The observable state of a span: its attributes in the order they
were set, and its status. -/
structure SpanState where
  attributes : List (String × AttrVal)
  status : Option SpanStatus
  deriving DecidableEq

/-- `span.set_attribute(key, value)`. -/
def SpanState.set_attribute (span : SpanState) (key : String) (value : AttrVal) :
    SpanState :=
  ⟨span.attributes ++ [(key, value)], span.status⟩

/-- `span.set_status(status)`. -/
def SpanState.set_status (span : SpanState) (st : SpanStatus) : SpanState :=
  ⟨span.attributes, some st⟩

/-- Digits-only decimal value, used by `int_of_string`. -/
def digitsToNat (cs : List Char) : Nat :=
  cs.foldl (fun acc c => acc * 10 + (c.toNat - 48)) 0

/-- Models Python `int(status_code)` on a string, over the character
list of the string: strip surrounding whitespace, allow one leading
sign, then require at least one decimal digit; anything else raises
`ValueError` (modelled as `none`).  (Underscore separators and
non-ASCII digits accepted by CPython are outside the inputs this module
sees and are not modelled.) -/
def int_of_string (s : String) : Option Int :=
  let cs := (((s.data.dropWhile fun c => c.isWhitespace).reverse.dropWhile
    fun c => c.isWhitespace).reverse)
  let signed : Bool × List Char :=
    match cs with
    | '-' :: rest => (true, rest)
    | '+' :: rest => (false, rest)
    | _ => (false, cs)
  if signed.2 ≠ [] ∧ signed.2.all (fun c => c.isDigit) then
    some (if signed.1 then -(digitsToNat signed.2 : Int) else (digitsToNat signed.2 : Int))
  else none

/-- Models Python `repr` on the str inputs `set_status_code` receives:
the value between quotes.  (Escape sequences inside the literal are not
modelled; the claims only need that the result contains the literal
value.) -/
def pyRepr (s : String) : String := "'" ++ s ++ "'"

/-- Embeds `set_status_code(span, status_code)` (source lines 116-131):
`try: status_code = int(status_code)`; on `ValueError` set status
UNKNOWN with message `"Non-integer HTTP status: " + repr(status_code)`;
otherwise set the `http.status_code` attribute and then the status from
`http_status_to_canonical_code(status_code)` (with its default
`allow_redirect=True`). -/
def set_status_code (span : SpanState) (status_code : String) : SpanState :=
  match int_of_string status_code with
  | none =>
      span.set_status
        ⟨StatusCanonicalCode.UNKNOWN,
         some ("Non-integer HTTP status: " ++ pyRepr status_code)⟩
  | some n =>
      (span.set_attribute "http.status_code" (AttrVal.int n)).set_status
        ⟨http_status_to_canonical_code n true, none⟩

/-- A scope carrying every field the extractor's required lookups read. -/
def fullScope : Scope :=
  ⟨some "http", some "GET", some "http", some "/", some "", some "1.1",
   none, none, []⟩

/-- The scope of C8's scenario: two `host` headers. -/
def hostHeaderScope : Scope :=
  ⟨some "http", some "GET", some "http", some "/", none, some "1.1",
   none, none, [("host", "a.com"), ("host", "b.com")]⟩

/-- A scope with a `client` pair present. -/
def clientScope : Scope :=
  ⟨some "http", some "GET", some "http", some "/", none, some "1.1",
   none, some (some ("127.0.0.1", 4321)), []⟩

/-- A scope whose `client` key is absent. -/
def noClientScope : Scope :=
  ⟨some "websocket", some "GET", some "http", some "/", none, some "1.1",
   none, none, []⟩

/-- The scope of C6's first scenario: server ("example.com", 8443),
scheme "https", path "/a", query string `q=1`. -/
def urlScopeA : Scope :=
  ⟨some "http", some "GET", some "https", some "/a", some "q=1", some "1.1",
   some (ServerVal.pair "example.com" 8443), none, []⟩

/-- The scope of C6's second scenario: server ("example.com", 80),
scheme "http", path "/a", empty query string. -/
def urlScopeB : Scope :=
  ⟨some "http", some "GET", some "http", some "/a", some "", some "1.1",
   some (ServerVal.pair "example.com" 80), none, []⟩

/-- C4: `set_status_code` with an integer-like status records both the
`http.status_code` attribute (the coerced integer) and the classifier's
canonical status; with a non-numeric status it leaves the attributes
unchanged and sets status UNKNOWN with a message containing the
rejected value, without raising. -/
theorem set_status_code_records_code_and_status (span : SpanState) (s : String) :
    (∀ n : Int, int_of_string s = some n →
      set_status_code span s =
        ⟨span.attributes ++ [("http.status_code", AttrVal.int n)],
         some ⟨http_status_to_canonical_code n true, none⟩⟩) ∧
    (int_of_string s = none →
      (set_status_code span s).attributes = span.attributes ∧
      ∃ pre post : String,
        (set_status_code span s).status =
          some ⟨StatusCanonicalCode.UNKNOWN, some (pre ++ s ++ post)⟩) := by
  constructor
  · intro n hn
    unfold set_status_code
    rw [hn]
    rfl
  · intro hn
    have hstat : set_status_code span s =
        span.set_status
          ⟨StatusCanonicalCode.UNKNOWN,
           some ("Non-integer HTTP status: " ++ pyRepr s)⟩ := by
      unfold set_status_code
      rw [hn]
    refine ⟨by rw [hstat]; rfl, "Non-integer HTTP status: '", "'", ?_⟩
    rw [hstat]
    unfold SpanState.set_status pyRepr
    rw [← String.append_assoc, ← String.append_assoc]
    rfl

/-- Witness for C4 at the concrete inputs "404" and "not-a-number". -/
theorem set_status_code_records_code_and_status_witness :
    set_status_code ⟨[], none⟩ "404" =
      ⟨[("http.status_code", AttrVal.int 404)],
       some ⟨StatusCanonicalCode.NOT_FOUND, none⟩⟩ ∧
    (set_status_code ⟨[], none⟩ "not-a-number").attributes = [] := by
  constructor
  · have h := (set_status_code_records_code_and_status ⟨[], none⟩ "404").1 404 (by rfl)
    rw [h]; rfl
  · exact ((set_status_code_records_code_and_status ⟨[], none⟩ "not-a-number").2
      (by rfl)).1

/-- C5 (code evaluated at the failing input): on a scope carrying every
required field, `collect_request_attributes` does not return an
attribute set; building the result dict evaluates `scope("type")`,
which calls the scope dict and raises `TypeError`. -/
theorem collect_request_attributes_full_scope_raises :
    collect_request_attributes fullScope =
      Except.error (PyErr.typeError "'dict' object is not callable") := rfl

/-- The URL formula as the specification words it: scheme, `://`, host
with a `:port` suffix exactly when the port differs from 80, the path,
then `?` and the query string exactly when the query string is
non-empty. -/
def specUrl (scheme host : String) (port : Int) (path query : String) : String :=
  scheme ++ "://" ++ host ++ (if port = 80 then "" else ":" ++ toString port) ++ path
    ++ (if query = "" then "" else "?" ++ query)

/-- C6: whenever `scheme` and `path` are present, the `http_url` value
computed inside `collect_request_attributes` (source lines 89-94)
matches the specification's URL formula, with the query-string suffix
exactly when the query string is present and non-empty. -/
theorem http_url_matches_spec_formula (scope : Scope) (scheme path : String)
    (hs : scope.scheme = some scheme) (hp : scope.path = some path) :
    http_url_of_scope scope =
      Except.ok (specUrl scheme (resolveServer scope).1 (resolveServer scope).2 path
        (scope.query_string.getD "")) := by
  rcases hsv : resolveServer scope with ⟨host, port⟩
  unfold http_url_of_scope
  rw [hsv, hs, hp]
  simp only [pyStrOfGet, hostDisplay, specUrl, bind, Except.bind]
  rcases hq : scope.query_string with _ | q
  · by_cases h80 : port = 80
    · subst h80
      simp [String.append_assoc, String.append_empty]
    · simp [h80, String.append_assoc, String.append_empty]
  · by_cases hqe : q = ""
    · subst hqe
      by_cases h80 : port = 80
      · subst h80
        simp [String.append_assoc, String.append_empty]
      · simp [h80, String.append_assoc, String.append_empty]
    · by_cases h80 : port = 80
      · subst h80
        simp [hqe, String.append_assoc, String.append_empty]
      · simp [h80, hqe, String.append_assoc, String.append_empty]

/-- Witness for C6 at the two scenario scopes. -/
theorem http_url_matches_spec_formula_witness :
    http_url_of_scope urlScopeA = Except.ok "https://example.com:8443/a?q=1" ∧
    http_url_of_scope urlScopeB = Except.ok "http://example.com/a" := by
  constructor
  · have h := http_url_matches_spec_formula urlScopeA "https" "/a" rfl rfl
    rw [h]; rfl
  · have h := http_url_matches_spec_formula urlScopeB "http" "/a" rfl rfl
    rw [h]; rfl

/-- C7 (code evaluated at the failing input): `get_default_span_name`
never returns a span name; `"HTTP {method}".format({"method": ...})`
passes the dict positionally, so the named field `{method}` raises
`KeyError` for every scope. -/
theorem get_default_span_name_raises_key_error (scope : Scope) :
    get_default_span_name scope = Except.error (PyErr.keyError "method") := rfl

/-- C8 (code evaluated at the failing input): on the scenario scope with
headers `[("host","a.com"), ("host","b.com")]`, the comma-join the
claim describes is indeed what lines 107-109 would compute, but
`collect_request_attributes` raises `TypeError` at `scope("type")`
before reaching them and returns no attribute set. -/
theorem collect_host_header_scope_raises :
    collect_request_attributes hostHeaderScope =
      Except.error (PyErr.typeError "'dict' object is not callable") ∧
    String.intercalate "," (get_header_from_scope hostHeaderScope "host") =
      "a.com,b.com" :=
  ⟨rfl, rfl⟩

/-- C9 (code evaluated at the failing input): with the `client` key
present and with it absent, `collect_request_attributes` raises
`TypeError` at `scope("type")` and returns no attribute set, so no
`net.peer.ip`/`net.peer.port` entries are ever produced. -/
theorem collect_client_scope_raises :
    collect_request_attributes clientScope =
      Except.error (PyErr.typeError "'dict' object is not callable") ∧
    collect_request_attributes noClientScope =
      Except.error (PyErr.typeError "'dict' object is not callable") :=
  ⟨rfl, rfl⟩

/-- C10: a `server` key holding a falsy value (`None` or an empty
sequence) is treated exactly like an absent key: the resolved pair is
the default ("0.0.0.0", 80), the displayed host carries no port suffix,
and `collect_request_attributes` gives the same result as on the scope
without the key. -/
theorem falsy_server_treated_as_absent (scope : Scope) (v : ServerVal)
    (hv : v.truthy = false) :
    resolveServer { scope with server := some v } = ("0.0.0.0", 80) ∧
    hostDisplay "0.0.0.0" 80 = "0.0.0.0" ∧
    collect_request_attributes { scope with server := some v } =
      collect_request_attributes { scope with server := none } := by
  have hres : resolveServer { scope with server := some v } =
      resolveServer { scope with server := none } := by
    cases v <;> simp_all [resolveServer, ServerVal.truthy]
  have hurl : http_url_of_scope { scope with server := some v } =
      http_url_of_scope { scope with server := none } := by
    unfold http_url_of_scope
    rw [hres]
  refine ⟨by rw [hres]; rfl, by rfl, ?_⟩
  unfold collect_request_attributes
  rw [hres, hurl]
  rfl

/-- Witness for C10 at a concrete scope with `server` set to `None`. -/
theorem falsy_server_treated_as_absent_witness :
    resolveServer { fullScope with server := some ServerVal.pyNone } =
      ("0.0.0.0", 80) := by
  exact (falsy_server_treated_as_absent fullScope ServerVal.pyNone (by decide)).1
